import Mathlib

/- Verification of the AI Council request pipeline, shallowly embedded from
   the Python sources:
     ai_council/orchestration/layer.py   (ConcreteOrchestrationLayer)
     ai_council/core/error_handling.py   (ErrorResponseFactory)
     ai_council/main.py                  (AICouncil._execute_with_timeout)
     backend/app/services/cost_estimator.py (CostEstimator)
   Python floats are modelled as exact rationals: every numeric literal in the
   translated code (0.25, 0.5, 1.5, 2.0, 3.0, 5.0, 0.2) is an exact binary
   float, so rational arithmetic agrees with the source on these paths. -/

deriving instance DecidableEq for Except

namespace AiCouncil

/-- Execution modes (core.models.ExecutionMode; in the backend the same three
modes appear as the strings "fast", "balanced", "best_quality"). -/
inductive ExecutionMode where
| fast
| balanced
| best_quality
deriving DecidableEq, Repr

/-! ## Backend cost estimator (backend/app/services/cost_estimator.py) -/

/-- CostEstimator._estimate_token_count: `int(text_length * 0.25)`.  0.25 is
exact in binary floating point, so for a nonnegative length this is floor
division by 4. -/
def estimate_token_count (text_length : ℕ) : ℕ :=
  text_length / 4

/-- CostEstimator.OUTPUT_MULTIPLIERS, keyed by mode. -/
def OUTPUT_MULTIPLIERS : ExecutionMode → ℚ
| .fast => 3/2
| .balanced => 2
| .best_quality => 3

/-- CostEstimator.SUBTASK_MULTIPLIERS, keyed by mode. -/
def SUBTASK_MULTIPLIERS : ExecutionMode → ℚ
| .fast => 3/2
| .balanced => 3
| .best_quality => 5

/-- Python `int(...)` applied to a nonnegative value: truncation towards zero,
i.e. the floor.  Every use site below passes a product of nonnegative
quantities. -/
def truncNat (q : ℚ) : ℕ := ⌊q⌋₊

/-- Round a rational to the nearest integer, ties to even — the rounding used
by Python's `round` on floats. -/
def roundHalfEvenZ (x : ℚ) : ℤ :=
  if x - ⌊x⌋ < 1/2 then ⌊x⌋
  else if 1/2 < x - ⌊x⌋ then ⌊x⌋ + 1
  else if ⌊x⌋ % 2 = 0 then ⌊x⌋ else ⌊x⌋ + 1

/-- `round(q, 6)`: round to six decimal places, ties to even. -/
def round6 (q : ℚ) : ℚ := (roundHalfEvenZ (q * 1000000) : ℚ) / 1000000

/-- The combined token count of CostEstimator.estimate_cost_for_mode:
`total_input_tokens + total_output_tokens` where
`input_tokens = _estimate_token_count(request_length)`,
`output_tokens = int(input_tokens * OUTPUT_MULTIPLIERS[mode])`,
`total_input_tokens = int(input_tokens * SUBTASK_MULTIPLIERS[mode])`,
`total_output_tokens = int(output_tokens * SUBTASK_MULTIPLIERS[mode])`. -/
def total_tokens (request_length : ℕ) (execution_mode : ExecutionMode) : ℕ :=
  let input_tokens : ℕ := estimate_token_count request_length
  let output_tokens : ℕ := truncNat ((input_tokens : ℚ) * OUTPUT_MULTIPLIERS execution_mode)
  truncNat ((input_tokens : ℚ) * SUBTASK_MULTIPLIERS execution_mode) +
    truncNat ((output_tokens : ℚ) * SUBTASK_MULTIPLIERS execution_mode)

/-- CostEstimator.estimate_cost_for_mode.  The factor `avg_cost_per_token`
stands for `_get_average_model_cost(execution_mode)`, whose data
(EXECUTION_MODE_CONFIGS and MODEL_REGISTRY) is not among the available
sources; see `AvgCostSpec`. -/
def estimate_cost_for_mode (request_length : ℕ) (execution_mode : ExecutionMode)
    (avg_cost_per_token : ℚ) : ℚ :=
  round6 ((total_tokens request_length execution_mode : ℚ) * avg_cost_per_token)

/-- CostEstimator.estimate_all_modes, with the per-mode average model cost
supplied as a function. -/
def estimate_all_modes (request_length : ℕ) (avg : ExecutionMode → ℚ) :
    ExecutionMode → ℚ :=
  fun mode => estimate_cost_for_mode request_length mode (avg mode)

/-- Modelled from the spec: `_get_average_model_cost` averages
`cost_per_input_token` and `cost_per_output_token` over the mode's preferred
models, read from EXECUTION_MODE_CONFIGS and MODEL_REGISTRY — two modules of
this repository that are not among the available sources.  Per the spec's
cost regime (§4.4: FAST favours the cheap multiplier 0.7, BEST_QUALITY the
expensive 1.5; §8: FAST ≤ BALANCED ≤ BEST_QUALITY), per-token dollar costs
are nonnegative and do not decrease from the FAST to the BALANCED to the
BEST_QUALITY model pool. -/
structure AvgCostSpec (avg : ExecutionMode → ℚ) : Prop where
  nonneg : 0 ≤ avg .fast
  fast_le_balanced : avg .fast ≤ avg .balanced
  balanced_le_best : avg .balanced ≤ avg .best_quality

lemma roundHalfEvenZ_le_add_one (x : ℚ) : roundHalfEvenZ x ≤ ⌊x⌋ + 1 := by
  unfold roundHalfEvenZ
  split_ifs <;> omega

lemma le_roundHalfEvenZ (x : ℚ) : ⌊x⌋ ≤ roundHalfEvenZ x := by
  unfold roundHalfEvenZ
  split_ifs <;> omega

lemma roundHalfEvenZ_mono {x y : ℚ} (h : x ≤ y) : roundHalfEvenZ x ≤ roundHalfEvenZ y := by
  rcases lt_or_eq_of_le (Int.floor_mono h : ⌊x⌋ ≤ ⌊y⌋) with hf | hf
  · calc roundHalfEvenZ x ≤ ⌊x⌋ + 1 := roundHalfEvenZ_le_add_one x
    _ ≤ ⌊y⌋ := by omega
    _ ≤ roundHalfEvenZ y := le_roundHalfEvenZ y
  · unfold roundHalfEvenZ
    rw [hf]
    have hxy : x - (⌊y⌋ : ℚ) ≤ y - (⌊y⌋ : ℚ) := by linarith
    split_ifs <;> first | omega | linarith

lemma round6_mono {x y : ℚ} (h : x ≤ y) : round6 x ≤ round6 y := by
  unfold round6
  have hm : roundHalfEvenZ (x * 1000000) ≤ roundHalfEvenZ (y * 1000000) :=
    roundHalfEvenZ_mono (by nlinarith)
  have : ((roundHalfEvenZ (x * 1000000) : ℚ)) ≤ (roundHalfEvenZ (y * 1000000) : ℚ) := by
    exact_mod_cast hm
  linarith

lemma truncNat_mono {x y : ℚ} (h : x ≤ y) : truncNat x ≤ truncNat y :=
  Nat.floor_mono h

lemma truncNat_mul_half3 (n : ℕ) : truncNat ((n : ℚ) * (3/2)) = 3 * n / 2 := by
  unfold truncNat
  rw [show (n : ℚ) * (3/2) = ((3 * n : ℕ) : ℚ) / ((2 : ℕ) : ℚ) by push_cast; ring,
      Nat.floor_div_nat, Nat.floor_natCast]

lemma truncNat_mul_nat (n m : ℕ) : truncNat ((n : ℚ) * (m : ℚ)) = m * n := by
  unfold truncNat
  rw [show (n : ℚ) * (m : ℚ) = ((m * n : ℕ) : ℚ) by push_cast; ring, Nat.floor_natCast]

lemma total_tokens_fast (L : ℕ) :
    total_tokens L .fast = 3 * (L / 4) / 2 + 3 * (3 * (L / 4) / 2) / 2 := by
  unfold total_tokens estimate_token_count
  simp only [OUTPUT_MULTIPLIERS, SUBTASK_MULTIPLIERS]
  rw [truncNat_mul_half3, truncNat_mul_half3]

lemma total_tokens_balanced (L : ℕ) : total_tokens L .balanced = 9 * (L / 4) := by
  unfold total_tokens estimate_token_count
  simp only [OUTPUT_MULTIPLIERS, SUBTASK_MULTIPLIERS]
  rw [show (2 : ℚ) = ((2 : ℕ) : ℚ) by norm_num, show (3 : ℚ) = ((3 : ℕ) : ℚ) by norm_num,
      truncNat_mul_nat, truncNat_mul_nat, truncNat_mul_nat]
  ring

lemma total_tokens_best (L : ℕ) : total_tokens L .best_quality = 20 * (L / 4) := by
  unfold total_tokens estimate_token_count
  simp only [OUTPUT_MULTIPLIERS, SUBTASK_MULTIPLIERS]
  rw [show (3 : ℚ) = ((3 : ℕ) : ℚ) by norm_num, show (5 : ℚ) = ((5 : ℕ) : ℚ) by norm_num,
      truncNat_mul_nat, truncNat_mul_nat, truncNat_mul_nat]
  ring

lemma total_tokens_mode_le (L : ℕ) :
    total_tokens L .fast ≤ total_tokens L .balanced ∧
    total_tokens L .balanced ≤ total_tokens L .best_quality := by
  rw [total_tokens_fast, total_tokens_balanced, total_tokens_best]
  omega

lemma total_tokens_mono (mode : ExecutionMode) {L1 L2 : ℕ} (h : L1 ≤ L2) :
    total_tokens L1 mode ≤ total_tokens L2 mode := by
  have h4 : L1 / 4 ≤ L2 / 4 := Nat.div_le_div_right h
  have hc : ((L1 / 4 : ℕ) : ℚ) ≤ ((L2 / 4 : ℕ) : ℚ) := by exact_mod_cast h4
  unfold total_tokens estimate_token_count
  have hm : 0 ≤ OUTPUT_MULTIPLIERS mode := by cases mode <;> norm_num [OUTPUT_MULTIPLIERS]
  have hs : 0 ≤ SUBTASK_MULTIPLIERS mode := by cases mode <;> norm_num [SUBTASK_MULTIPLIERS]
  have hout : truncNat (((L1 / 4 : ℕ) : ℚ) * OUTPUT_MULTIPLIERS mode) ≤
      truncNat (((L2 / 4 : ℕ) : ℚ) * OUTPUT_MULTIPLIERS mode) :=
    truncNat_mono (mul_le_mul_of_nonneg_right hc hm)
  refine Nat.add_le_add (truncNat_mono (mul_le_mul_of_nonneg_right hc hs))
    (truncNat_mono (mul_le_mul_of_nonneg_right ?_ hs))
  exact_mod_cast hout

/-- C6: for every request length, the three estimates returned by
CostEstimator.estimate_all_modes are ordered fast ≤ balanced ≤ best_quality.
The per-mode average model cost, whose defining data is outside the
available sources, is supplied through `AvgCostSpec`. -/
theorem estimate_all_modes_ordered (L : ℕ) (avg : ExecutionMode → ℚ)
    (h : AvgCostSpec avg) :
    estimate_all_modes L avg .fast ≤ estimate_all_modes L avg .balanced ∧
    estimate_all_modes L avg .balanced ≤ estimate_all_modes L avg .best_quality := by
  obtain ⟨htok1, htok2⟩ := total_tokens_mode_le L
  have hc1 : ((total_tokens L .fast : ℕ) : ℚ) ≤ ((total_tokens L .balanced : ℕ) : ℚ) := by
    exact_mod_cast htok1
  have hc2 : ((total_tokens L .balanced : ℕ) : ℚ) ≤ ((total_tokens L .best_quality : ℕ) : ℚ) := by
    exact_mod_cast htok2
  have hb : 0 ≤ avg .balanced := le_trans h.nonneg h.fast_le_balanced
  constructor
  · exact round6_mono (mul_le_mul hc1 h.fast_le_balanced h.nonneg (Nat.cast_nonneg _))
  · exact round6_mono (mul_le_mul hc2 h.balanced_le_best hb (Nat.cast_nonneg _))

/-- A concrete per-mode average-cost profile used by the C6 witness. -/
def costProfile : ExecutionMode → ℚ
| .fast => 1/1000000
| .balanced => 2/1000000
| .best_quality => 3/1000000

/-- Witness for C6 at request length 100 and a concrete cost profile. -/
theorem estimate_all_modes_ordered_witness :
    estimate_all_modes 100 costProfile .fast ≤ estimate_all_modes 100 costProfile .balanced ∧
    estimate_all_modes 100 costProfile .balanced ≤ estimate_all_modes 100 costProfile .best_quality :=
  estimate_all_modes_ordered 100 costProfile
    ⟨by norm_num [costProfile], by norm_num [costProfile], by norm_num [costProfile]⟩

/-- C7: for every mode, the cost estimate is monotone in the request length
(with the mode's average per-token cost nonnegative, as dollar costs are). -/
theorem estimate_cost_mono_in_length (mode : ExecutionMode) (c : ℚ) (L1 L2 : ℕ)
    (hc : 0 ≤ c) (hL : L1 < L2) :
    estimate_cost_for_mode L1 mode c ≤ estimate_cost_for_mode L2 mode c := by
  unfold estimate_cost_for_mode
  have htok : total_tokens L1 mode ≤ total_tokens L2 mode :=
    total_tokens_mono mode (le_of_lt hL)
  have hcast : ((total_tokens L1 mode : ℕ) : ℚ) ≤ ((total_tokens L2 mode : ℕ) : ℚ) := by
    exact_mod_cast htok
  exact round6_mono (mul_le_mul_of_nonneg_right hcast hc)

/-- Witness for C7: lengths 10 < 200 in fast mode, unit cost. -/
theorem estimate_cost_mono_in_length_witness :
    estimate_cost_for_mode 10 .fast 1 ≤ estimate_cost_for_mode 200 .fast 1 :=
  estimate_cost_mono_in_length .fast 1 10 200 (by norm_num) (by norm_num)

/-! ## Core data model

Modelled from the spec (§3): `ai_council/core/models.py` and
`ai_council/core/interfaces.py` are not among the available sources; the
entity fields below follow the spec's data model and the constructor calls in
`ai_council/orchestration/layer.py`.  Entity ids (uuids in the source) are
modelled as naturals. -/

/-- Subtask task types (spec §3). -/
inductive TaskType where
| reasoning
| research
| code_generation
| fact_checking
| debugging
deriving DecidableEq, Repr

/-- Subtask priorities (spec §3). -/
inductive Priority where
| low
| medium
| high
deriving DecidableEq, Repr

/-- Priority.value as used by `subtask.priority.value in ["low", "medium"]`. -/
def priority_value : Priority → String
| .low => "low"
| .medium => "medium"
| .high => "high"

/-- Task (spec §3), assembled by the orchestrator from user input. -/
structure Task where
  id : ℕ
  content : String
  intent : String := ""
  complexity : String := ""
  execution_mode : ExecutionMode
deriving DecidableEq, Repr

/-- Subtask (spec §3), produced by the decomposer. -/
structure Subtask where
  id : ℕ
  parent_task_id : ℕ := 0
  content : String := ""
  task_type : Option TaskType := none
  priority : Priority := .medium
deriving DecidableEq, Repr

/-- SelfAssessment (spec §3): the fields the orchestration layer reads. -/
structure SelfAssessment where
  confidence_score : ℚ
  estimated_cost : ℚ := 0
deriving DecidableEq, Repr

/-- A value in a response's metadata dict. -/
inductive MetaVal where
| b (x : Bool)
| s (x : String)
| q (x : ℚ)
deriving DecidableEq, Repr

/-- AgentResponse (spec §3). -/
structure AgentResponse where
  subtask_id : ℕ
  model_used : String
  content : String := ""
  self_assessment : Option SelfAssessment := none
  success : Bool := true
  error_message : Option String := none
  metadata : List (String × MetaVal) := []
deriving DecidableEq, Repr

/-- ExecutionMetadata (spec §3). -/
structure ExecutionMetadata where
  execution_path : List String := []
  total_execution_time : ℚ := 0
  parallel_executions : ℕ := 0
  models_used : List String := []
deriving DecidableEq, Repr

/-- CostBreakdown (spec §3): the fields the claims touch. -/
structure CostBreakdown where
  total_cost : ℚ := 0
  execution_time : ℚ := 0
deriving DecidableEq, Repr

/-- FinalResponse (spec §3). -/
structure FinalResponse where
  content : String
  overall_confidence : ℚ
  models_used : List String := []
  success : Bool := true
  error_message : Option String := none
  error_type : Option String := none
  execution_metadata : Option ExecutionMetadata := none
  cost_breakdown : Option CostBreakdown := none
deriving DecidableEq, Repr

/-- ExecutionPlan (spec §3 / core.interfaces). -/
structure ExecutionPlan where
  parallel_groups : List (List Subtask)
  sequential_order : List ℕ := []
deriving DecidableEq, Repr

/-! ## Exceptions (ai_council/core/exceptions.py declarations, spec §7)

A Python exception is modelled by its class (`kind`), its string
representation (`msg`), and — for the timeout handler's TimeoutError — its
`timeout_duration`. -/

/-- The exception classes the translated code distinguishes.  The first eight
are `AICouncilError` and its subclasses, `timeout_err` is the timeout
handler's TimeoutError, `other` is any other exception (ValueError,
ZeroDivisionError, ...). -/
inductive ExcKind where
| configuration
| validation
| authentication
| model_timeout
| rate_limit
| provider
| orchestration
| ai_council
| timeout_err
| other
deriving DecidableEq, Repr

/-- A raised Python exception. -/
structure Exc where
  kind : ExcKind
  msg : String := ""
  timeout_duration : ℚ := 0
deriving DecidableEq, Repr

/-- `isinstance(e, AICouncilError)`. -/
def is_ai_council_error (e : Exc) : Bool :=
  match e.kind with
  | .timeout_err | .other => false
  | _ => true

/-! ## Error responses (ai_council/core/error_handling.py) -/

/-- The `context` dict passed to create_error_response: the keys the factory
reads (`component`, `execution_time`, `models_used`). -/
structure ErrorContext where
  component : Option String := none
  execution_time : Option ℚ := none
  models_used : List String := []
deriving DecidableEq, Repr

/-- ErrorResponseFactory._get_error_type over
DEFAULT_ERROR_TYPE_MAPPING (first isinstance match in insertion order;
unknown exceptions map to "SystemError"). -/
def get_error_type (e : Exc) : String :=
  match e.kind with
  | .configuration => "ConfigurationError"
  | .validation => "ValidationError"
  | .authentication => "AuthenticationError"
  | .model_timeout => "ModelTimeoutError"
  | .rate_limit => "RateLimitError"
  | .provider => "ProviderError"
  | .orchestration => "OrchestrationError"
  | .ai_council => "AICouncilError"
  | .timeout_err => "SystemError"
  | .other => "SystemError"

/-- The module-level create_error_response convenience function, which
delegates to the default ErrorResponseFactory.  The default factory has no
registered custom handlers, so the custom-handler scan is a no-op. -/
def create_error_response (exception : Exc) (context : ErrorContext) : FinalResponse :=
  { content := ""
    overall_confidence := 0
    success := false
    error_message := some exception.msg
    error_type := some (get_error_type exception)
    models_used := context.models_used
    cost_breakdown := context.execution_time.map (fun t => { execution_time := t }) }

/-- C10: for every exception and every context, create_error_response returns
a FinalResponse with success = false, overall_confidence = 0.0, content = "",
and error_message equal to the exception's string representation.  The
function is total (it never raises) by construction. -/
theorem create_error_response_spec (e : Exc) (context : ErrorContext) :
    (create_error_response e context).success = false ∧
    (create_error_response e context).overall_confidence = 0 ∧
    (create_error_response e context).content = "" ∧
    (create_error_response e context).error_message = some e.msg :=
  ⟨rfl, rfl, rfl, rfl⟩

/-! ## Failure events (ai_council/core/failure_handling.py declarations)

Modelled from the spec (§3, §7): failure_handling.py is not among the
available sources; only the two event types the orchestration layer files are
needed.  `below_threshold` renders the source's PARTIAL_FAILURE member. -/

/-- FailureType: the members the orchestration layer uses. -/
inductive FailureType where
| below_threshold
| system_overload
deriving DecidableEq, Repr

/-- A failure event filed with the resilience manager (create_failure_event);
the context dict's numeric entries are carried as fields. -/
structure FailureEvent where
  failure_type : FailureType
  component : String
  error_message : String := ""
  success_rate : ℚ := 0
  total_subtasks : ℕ := 0
  successful_subtasks : ℕ := 0
deriving DecidableEq, Repr

/-! ## The orchestration layer (ai_council/orchestration/layer.py)

The external collaborators — analysis engine, decomposer, router, registry,
cost optimizer, execution agent, arbitration and synthesis layers, resilience
manager, wall clock — are embedded as an `Env` of pure oracles; a fallible
call returns `Except Exc`.  Each oracle models one call site including its
circuit-breaker wrapper, so a breaker-open fast-fail is one more way for the
oracle to return an error. -/

/-- The collaborators of ConcreteOrchestrationLayer as observed by one run of
process_request. -/
structure Env where
  /-- `analysis_cb.call(protected_analysis)` inside
  _create_task_from_input_protected: intent + complexity analysis assembling a
  Task. -/
  analyze_task : String → ExecutionMode → Except Exc Task
  /-- `task_decomposer.decompose(task)` through its breaker. -/
  decompose : Task → Except Exc (List Subtask)
  /-- `task_decomposer.validate_decomposition(subtasks)`. -/
  validate_decomposition : List Subtask → Bool
  /-- `analysis_engine.classify_task_type(content)` in the fallback path. -/
  classify_task_type : String → Except Exc (List TaskType)
  /-- `model_context_protocol.determine_parallelism(subtasks)`. -/
  determine_parallelism : List Subtask → Except Exc ExecutionPlan
  /-- `resilience_manager.health_check()["overall_health"]` observed at the
  given subtask's execution turn. -/
  overall_health : Subtask → String
  /-- ids of `model_registry.get_models_for_task_type(task_type)`. -/
  models_for_task_type : Option TaskType → List String
  /-- `cost_optimizer.optimize_model_selection(...).recommended_model`. -/
  recommended_model : Subtask → ExecutionMode → List String → String
  /-- `timeout_handler.execute_with_timeout(execution_agent.execute, ...)` on
  one (subtask, model) pair. -/
  execute : Subtask → String → Except Exc AgentResponse
  /-- `resilience_manager.handle_failure(event).action_type`. -/
  recovery_action : FailureEvent → String
  /-- `arbitration_cb.call(...)`: the arbitration layer's
  `validated_responses` list. -/
  arbitrate : List AgentResponse → Except Exc (List AgentResponse)
  /-- `synthesis_cb.call(synthesis_layer.synthesize(validated_responses))`. -/
  synthesize : List AgentResponse → Except Exc FinalResponse
  /-- `synthesis_layer.attach_metadata(response, execution_metadata)`. -/
  attach_metadata : FinalResponse → ExecutionMetadata → Except Exc FinalResponse
  /-- `time.time() - start_time` at response-construction time. -/
  elapsed : ℚ := 0

/-- _stage_analyze_and_create_task via _create_task_from_input_protected:
non-AICouncilError failures are wrapped into an OrchestrationError. -/
def stage_analyze_and_create_task (env : Env) (user_input : String)
    (execution_mode : ExecutionMode) : Except Exc Task :=
  match env.analyze_task user_input execution_mode with
  | .ok task => .ok task
  | .error e =>
    .error (if is_ai_council_error e then e
            else { kind := .orchestration, msg := "Analysis engine failure: " ++ e.msg })

/-- _create_fallback_subtask (the generated uuid is abstracted to id 0; the
message-free classification fallback keeps [REASONING]). -/
def create_fallback_subtask (env : Env) (task : Task) : Subtask :=
  let task_types : List TaskType :=
    match env.classify_task_type task.content with
    | .ok ts => ts
    | .error _ => [.reasoning]
  { id := 0
    parent_task_id := task.id
    content := task.content
    task_type := task_types.head? }

/-- _stage_decompose_task via _decompose_task_protected: a decomposition
failure or failed validation falls back to a single fallback subtask. -/
def stage_decompose_task (env : Env) (task : Task) : List Subtask :=
  let protected_result : Except Exc (List Subtask) :=
    match env.decompose task with
    | .error e => .error e
    | .ok subtasks =>
      if env.validate_decomposition subtasks then .ok subtasks
      else .error { kind := .other, msg := "Invalid task decomposition" }
  match protected_result with
  | .ok subtasks => subtasks
  | .error _ => [create_fallback_subtask env task]

/-- _create_sequential_plan: every subtask its own group. -/
def create_sequential_plan (subtasks : List Subtask) : ExecutionPlan :=
  { parallel_groups := subtasks.map (fun s => [s])
    sequential_order := subtasks.map (·.id) }

/-- _stage_plan_execution: router failure falls back to the sequential
plan. -/
def stage_plan_execution (env : Env) (subtasks : List Subtask) : ExecutionPlan :=
  match env.determine_parallelism subtasks with
  | .ok plan => plan
  | .error _ => create_sequential_plan subtasks

/-- _execute_single_subtask.  Every branch of the source returns an
AgentResponse; exceptions from the timeout handler map to the timeout
response, all others to the generic failure response.  (The f-string renders
of subtask.task_type and exception text are abstracted to fixed prefixes.) -/
def execute_single_subtask (env : Env) (subtask : Subtask)
    (execution_mode : ExecutionMode) : AgentResponse :=
  if env.overall_health subtask = "degraded" ∧ execution_mode = .fast ∧
      priority_value subtask.priority ∈ ["low", "medium"] then
    { subtask_id := subtask.id
      model_used := "skipped"
      content := ""
      success := false
      error_message := some "Skipped due to system degradation"
      metadata := [("skipped", .b true), ("reason", .s "system_degraded")] }
  else if env.models_for_task_type subtask.task_type = [] then
    { subtask_id := subtask.id
      model_used := "none_available"
      content := ""
      success := false
      error_message := some "No models available for task type" }
  else if env.recommended_model subtask execution_mode (env.models_for_task_type subtask.task_type)
      ∈ env.models_for_task_type subtask.task_type then
    match env.execute subtask
        (env.recommended_model subtask execution_mode
          (env.models_for_task_type subtask.task_type)) with
    | .ok response => response
    | .error e =>
      if e.kind = .timeout_err then
        { subtask_id := subtask.id
          model_used := "timeout"
          content := ""
          success := false
          error_message := some ("Execution timed out: " ++ e.msg)
          metadata := [("timeout", .b true), ("timeout_duration", .q e.timeout_duration)] }
      else
        { subtask_id := subtask.id
          model_used := "unknown"
          content := ""
          success := false
          error_message := some e.msg }
  else
    { subtask_id := subtask.id
      model_used := env.recommended_model subtask execution_mode
        (env.models_for_task_type subtask.task_type)
      content := ""
      success := false
      error_message := some ("Selected model "
        ++ env.recommended_model subtask execution_mode
          (env.models_for_task_type subtask.task_type)
        ++ " not available") }

/-- _execute_parallel_group_resilient: one response per group member, in
order. -/
def execute_parallel_group_resilient (env : Env) (subtasks : List Subtask)
    (execution_mode : ExecutionMode) : List AgentResponse :=
  subtasks.map (fun s => execute_single_subtask env s execution_mode)

/-- `sum(1 for resp in responses if resp.success)`. -/
def success_count (responses : List AgentResponse) : ℕ :=
  (responses.filter (·.success)).length

/-- The loop of _execute_subtasks_with_resilience over the plan's parallel
groups, carrying `group_index`, `failed_groups` and the accumulated
responses.  An empty group makes the source divide by zero; that
ZeroDivisionError is the Except error. -/
def execute_groups_loop (env : Env) (execution_mode : ExecutionMode) :
    List (List Subtask) → ℕ → ℕ → List AgentResponse → Except Exc (List AgentResponse)
| [], _, _, acc => .ok acc
| group :: rest, group_index, failed_groups, acc =>
  let group_responses := execute_parallel_group_resilient env group execution_mode
  if group_responses.length = 0 then
    .error { kind := .other, msg := "division by zero" }
  else
    let group_success_rate : ℚ :=
      (success_count group_responses : ℚ) / (group_responses.length : ℚ)
    let failed' := if group_success_rate < 1/2 then failed_groups + 1 else failed_groups
    if (failed' : ℚ) / ((group_index : ℚ) + 1) > 1/2 ∧ execution_mode = .fast then
      .ok (acc ++ group_responses)
    else
      execute_groups_loop env execution_mode rest (group_index + 1) failed' (acc ++ group_responses)

/-- _execute_subtasks_with_resilience (= _stage_execute_subtasks; the
`subtasks` parameter of the source is unused — only the plan's groups are
iterated). -/
def execute_subtasks_with_resilience (env : Env) (plan : ExecutionPlan)
    (execution_mode : ExecutionMode) : Except Exc (List AgentResponse) :=
  execute_groups_loop env execution_mode plan.parallel_groups 0 0 []

/-- The PARTIAL_FAILURE event filed by _stage_check_partial_failure (the
".1%"-formatted message is abstracted; the context's numeric entries are
exact). -/
def check_responses_failure_event (agent_responses : List AgentResponse) : FailureEvent :=
  { failure_type := .below_threshold
    component := "orchestration_layer"
    error_message := "Only a fraction of subtasks succeeded"
    success_rate := (success_count agent_responses : ℚ) / (agent_responses.length : ℚ)
    total_subtasks := agent_responses.length
    successful_subtasks := success_count agent_responses }

/-- _stage_check_partial_failure: returns the action string, the (possibly
marked) metadata, and the failure event filed with the resilience manager, if
any.  The empty-response guard returns "continue" before any division. -/
def stage_check_failure_rate (env : Env) (agent_responses : List AgentResponse)
    (execution_metadata : ExecutionMetadata) :
    String × ExecutionMetadata × Option FailureEvent :=
  if agent_responses.isEmpty then ("continue", execution_metadata, none)
  else if (success_count agent_responses : ℚ) / (agent_responses.length : ℚ) < 1/2 then
    if env.recovery_action (check_responses_failure_event agent_responses)
        = "continue_degraded" then
      ("degraded",
       { execution_metadata with
         execution_path := execution_metadata.execution_path ++ ["partial_failure_degraded"] },
       some (check_responses_failure_event agent_responses))
    else
      ("fail", execution_metadata, some (check_responses_failure_event agent_responses))
  else ("continue", execution_metadata, none)

/-- _stage_arbitrate: at most one response skips arbitration; an arbitration
failure degrades to `responses[:1]`. -/
def stage_arbitrate (env : Env) (responses : List AgentResponse) : List AgentResponse :=
  if responses.length ≤ 1 then responses
  else
    match env.arbitrate responses with
    | .ok validated => validated
    | .error _ => responses.take 1

/-- _stage_synthesize: a synthesis failure falls back to the first validated
response, or to the fixed no-responses failure. -/
def stage_synthesize (env : Env) (validated_responses : List AgentResponse) : FinalResponse :=
  match env.synthesize validated_responses with
  | .ok final => final
  | .error _ =>
    match validated_responses with
    | [] =>
      { content := ""
        overall_confidence := 1/2
        models_used := []
        success := false
        error_message := some "No responses available for synthesis" }
    | first_response :: _ =>
      { content := first_response.content
        overall_confidence :=
          match first_response.self_assessment with
          | some sa => sa.confidence_score
          | none => 1/2
        models_used := [first_response.model_used]
        success := true }

/-- _create_degraded_response ("50%" is the rendered
partial_failure_threshold). -/
def create_degraded_response (message : String) (execution_metadata : ExecutionMetadata)
    (execution_time : ℚ) (error_details : String) : FinalResponse :=
  { content := "System operating in degraded mode: " ++ message
    overall_confidence := 1/5
    execution_metadata := some { execution_metadata with total_execution_time := execution_time }
    success := false
    error_message := some (if error_details ≠ "" then "Degraded operation: " ++ error_details
                           else message)
    cost_breakdown := some { execution_time := execution_time }
    models_used := [] }

/-- The except clauses of process_request: the timeout handler's TimeoutError
is re-raised as ModelTimeoutError, AICouncilError is re-raised, anything else
becomes the structured error response (after filing a SYSTEM_OVERLOAD event,
which has no observable effect on the return value). -/
def handle_pipeline_exception (e : Exc) : Except Exc FinalResponse :=
  if e.kind = .timeout_err then
    .error { kind := .model_timeout, msg := "Request processing timed out: " ++ e.msg }
  else if is_ai_council_error e then
    .error e
  else
    .ok (create_error_response e { component := some "orchestration_layer.process_request" })

/-- `list(set(resp.model_used for resp in agent_responses if resp.success))`
(the set's iteration order is abstracted to first occurrences). -/
def successful_models (agent_responses : List AgentResponse) : List String :=
  ((agent_responses.filter (·.success)).map (·.model_used)).dedup

/-- The tail of process_request after the partial-failure check did not say
"fail": filter successful responses, arbitrate, synthesize, attach
metadata. -/
def proceed_after_check (env : Env) (execution_metadata : ExecutionMetadata)
    (agent_responses : List AgentResponse) : Except Exc FinalResponse :=
  let successful_responses := agent_responses.filter (·.success)
  if successful_responses.isEmpty then
    .ok (create_degraded_response "All subtasks failed" execution_metadata env.elapsed
      "No successful subtask executions")
  else
    let validated_responses := stage_arbitrate env successful_responses
    let m5 := { execution_metadata with
                execution_path := execution_metadata.execution_path ++ ["arbitration"] }
    let final_response := stage_synthesize env validated_responses
    let m6 := { m5 with
                execution_path := m5.execution_path ++ ["synthesis"]
                total_execution_time := env.elapsed }
    match env.attach_metadata final_response m6 with
    | .ok fr => .ok fr
    | .error e => handle_pipeline_exception e

/-- process_request from the partial-failure check on. -/
def process_after_execution (env : Env) (execution_metadata : ExecutionMetadata)
    (agent_responses : List AgentResponse) : Except Exc FinalResponse :=
  let checked := stage_check_failure_rate env agent_responses execution_metadata
  if checked.1 = "fail" then
    .ok (create_degraded_response "Too many subtask failures" checked.2.1 env.elapsed
      "Success rate below 50% threshold")
  else
    proceed_after_check env checked.2.1 agent_responses

/-- ConcreteOrchestrationLayer.process_request.  Stage 2 (cost estimation,
skipped in FAST mode) catches its own exceptions and its result is only
logged, so it is omitted.  An `Except.error` result models an exception
propagating out of the decorated method (always an AICouncilError by
construction of the handlers). -/
def process_request (env : Env) (user_input : String) (execution_mode : ExecutionMode) :
    Except Exc FinalResponse :=
  match stage_analyze_and_create_task env user_input execution_mode with
  | .error e => handle_pipeline_exception e
  | .ok task =>
    let m0 : ExecutionMetadata := { execution_path := ["task_creation"] }
    let subtasks := stage_decompose_task env task
    let m1 := { m0 with execution_path := m0.execution_path ++ ["task_decomposition"] }
    let plan := stage_plan_execution env subtasks
    let m2 := { m1 with
                parallel_executions := plan.parallel_groups.length
                execution_path := m1.execution_path ++ ["execution_planning"] }
    match execute_subtasks_with_resilience env plan execution_mode with
    | .error e => handle_pipeline_exception e
    | .ok agent_responses =>
      let m3 := { m2 with
                  execution_path := m2.execution_path ++ ["subtask_execution"]
                  models_used := successful_models agent_responses }
      process_after_execution env m3 agent_responses

/-! ## AICouncil._execute_with_timeout (ai_council/main.py)

The outer layer runs process_request on an executor with a deadline.
`timed_out` tells whether `future.result(timeout=...)` raised
concurrent.futures.TimeoutError; otherwise the future's outcome — a value or
a re-raised exception — is delivered.  Either exception path is converted to a
structured error response, so the method is total. -/
def execute_with_timeout (env : Env) (user_input : String)
    (execution_mode : ExecutionMode) (timed_out : Bool) (timeout_seconds : ℚ) :
    FinalResponse :=
  if timed_out then
    create_error_response
      { kind := .other,
        msg := "Request timed out after " ++ toString timeout_seconds ++ " seconds" }
      { component := some "main.process_request", execution_time := some timeout_seconds }
  else
    match process_request env user_input execution_mode with
    | .ok response => response
    | .error e => create_error_response e { component := some "main.process_request" }

/-! ## Claim theorems for the pipeline -/

/-- C1: for every user input and execution mode, the top-level
request-processing operation totally returns a FinalResponse (it is a Lean
function, so it cannot raise), and every failure — an exception escaping the
orchestration layer, or the request deadline firing — is delivered as a
FinalResponse with success = false and a populated error_message.
Configuration validation happens in AICouncil.__init__, before any request
is processed, and is outside this function. -/
theorem process_failures_yield_structured_response
    (env : Env) (user_input : String) (execution_mode : ExecutionMode)
    (timed_out : Bool) (timeout_seconds : ℚ)
    (h : timed_out = true ∨
         ∃ e, process_request env user_input execution_mode = .error e) :
    (execute_with_timeout env user_input execution_mode timed_out timeout_seconds).success
        = false ∧
    (execute_with_timeout env user_input execution_mode timed_out
        timeout_seconds).error_message.isSome = true := by
  rcases h with h | ⟨e, he⟩
  · subst h
    exact ⟨rfl, rfl⟩
  · cases timed_out with
    | true => exact ⟨rfl, rfl⟩
    | false =>
      simp only [execute_with_timeout, Bool.false_eq_true, if_false, he]
      exact ⟨rfl, rfl⟩

/-- An environment whose analysis engine raises: the breaker-protected
analysis fails with an OrchestrationError, every later collaborator is
benign. -/
def failing_env : Env :=
  { analyze_task := fun _ _ => .error { kind := .orchestration, msg := "Analysis engine failure: boom" }
    decompose := fun _ => .ok []
    validate_decomposition := fun _ => true
    classify_task_type := fun _ => .ok []
    determine_parallelism := fun st => .ok (create_sequential_plan st)
    overall_health := fun _ => "operational"
    models_for_task_type := fun _ => []
    recommended_model := fun _ _ _ => ""
    execute := fun s m => .ok { subtask_id := s.id, model_used := m }
    recovery_action := fun _ => "fail"
    arbitrate := fun rs => .ok rs
    synthesize := fun _ => .error { kind := .other, msg := "synthesis down" }
    attach_metadata := fun fr _ => .ok fr }

/-- Witness for C1: the request deadline fires on a concrete environment. -/
theorem process_failures_yield_structured_response_witness :
    (execute_with_timeout failing_env "hello" .balanced true 300).success = false ∧
    (execute_with_timeout failing_env "hello" .balanced true 300).error_message.isSome = true :=
  process_failures_yield_structured_response failing_env "hello" .balanced true 300
    (Or.inl rfl)

/-- C3: when synthesis fails with at least one validated response, the stage
returns that first response's content with its self-assessed confidence and
success = true; with zero validated responses it returns success = false and
error_message "No responses available for synthesis" (the source also sets
overall_confidence = 0.5 there). -/
theorem stage_synthesize_fallback (env : Env) (validated_responses : List AgentResponse)
    (e : Exc) (hfail : env.synthesize validated_responses = .error e) :
    (validated_responses = [] →
      stage_synthesize env validated_responses =
        { content := ""
          overall_confidence := 1/2
          models_used := []
          success := false
          error_message := some "No responses available for synthesis" }) ∧
    (∀ first rest, validated_responses = first :: rest →
      (stage_synthesize env validated_responses).content = first.content ∧
      (stage_synthesize env validated_responses).success = true ∧
      (stage_synthesize env validated_responses).models_used = [first.model_used] ∧
      ∀ sa, first.self_assessment = some sa →
        (stage_synthesize env validated_responses).overall_confidence = sa.confidence_score) := by
  constructor
  · intro hempty
    subst hempty
    simp only [stage_synthesize, hfail]
  · intro first rest hcons
    subst hcons
    simp only [stage_synthesize, hfail]
    refine ⟨trivial, trivial, trivial, ?_⟩
    intro sa hsa
    simp [hsa]

/-- Witness for C3: a concrete environment with a broken synthesis layer and
zero validated responses. -/
theorem stage_synthesize_fallback_witness :
    stage_synthesize failing_env [] =
      { content := ""
        overall_confidence := 1/2
        models_used := []
        success := false
        error_message := some "No responses available for synthesis" } :=
  (stage_synthesize_fallback failing_env [] { kind := .other, msg := "synthesis down" }
    rfl).1 rfl

/-- C8: with exactly one (successful) response, arbitration is skipped and
the list is returned unchanged; when the arbitration layer fails, the stage
degrades to the first response of the list (process_request passes it the
successful responses, so that is the first successful response). -/
theorem stage_arbitrate_spec (env : Env) (responses : List AgentResponse) :
    (responses.length = 1 → stage_arbitrate env responses = responses) ∧
    (∀ e, env.arbitrate responses = .error e → 1 < responses.length →
      stage_arbitrate env responses = responses.take 1) := by
  constructor
  · intro hone
    simp [stage_arbitrate, hone]
  · intro e hfail hgt
    simp only [stage_arbitrate, hfail]
    rw [if_neg (by omega)]

/-- A sample successful agent response. -/
def resp_ok : AgentResponse :=
  { subtask_id := 1
    model_used := "M"
    content := "Y"
    success := true
    self_assessment := some { confidence_score := 9/10 } }

/-- Witness for C8: a one-element response list passes through unchanged. -/
theorem stage_arbitrate_spec_witness :
    stage_arbitrate failing_env [resp_ok] = [resp_ok] :=
  (stage_arbitrate_spec failing_env [resp_ok]).1 rfl

/-- C2: in the partial-failure check, a success rate strictly below one half
files a PARTIAL_FAILURE event with the resilience manager; recommendation
"continue_degraded" appends "partial_failure_degraded" to the execution path
and processing proceeds to arbitration and synthesis; any other
recommendation makes process_request return the degraded FinalResponse with
overall_confidence = 0.2, success = false and the human-readable degraded
content. -/
theorem check_failure_rate_spec
    (env : Env) (user_input : String) (execution_mode : ExecutionMode) (task : Task)
    (responses : List AgentResponse)
    (h1 : env.analyze_task user_input execution_mode = .ok task)
    (hex : execute_subtasks_with_resilience env
        (stage_plan_execution env (stage_decompose_task env task)) execution_mode
        = .ok responses)
    (hne : responses ≠ [])
    (hrate : (success_count responses : ℚ) / (responses.length : ℚ) < 1/2) :
    (check_responses_failure_event responses).failure_type = .below_threshold ∧
    (∀ m : ExecutionMetadata,
      (stage_check_failure_rate env responses m).2.2 =
        some (check_responses_failure_event responses)) ∧
    (∀ m : ExecutionMetadata,
      env.recovery_action (check_responses_failure_event responses) = "continue_degraded" →
      stage_check_failure_rate env responses m =
        ("degraded",
         { m with execution_path := m.execution_path ++ ["partial_failure_degraded"] },
         some (check_responses_failure_event responses))) ∧
    (env.recovery_action (check_responses_failure_event responses) = "continue_degraded" →
      process_request env user_input execution_mode =
        proceed_after_check env
          { execution_path := ["task_creation", "task_decomposition", "execution_planning",
                               "subtask_execution", "partial_failure_degraded"]
            parallel_executions :=
              (stage_plan_execution env (stage_decompose_task env task)).parallel_groups.length
            models_used := successful_models responses }
          responses) ∧
    (env.recovery_action (check_responses_failure_event responses) ≠ "continue_degraded" →
      process_request env user_input execution_mode =
        .ok (create_degraded_response "Too many subtask failures"
          { execution_path := ["task_creation", "task_decomposition", "execution_planning",
                               "subtask_execution"]
            parallel_executions :=
              (stage_plan_execution env (stage_decompose_task env task)).parallel_groups.length
            models_used := successful_models responses }
          env.elapsed "Success rate below 50% threshold")) ∧
    (∀ msg m t d, (create_degraded_response msg m t d).overall_confidence = 1/5 ∧
      (create_degraded_response msg m t d).success = false) := by
  have hne' : responses.isEmpty = false := by
    cases responses with
    | nil => exact absurd rfl hne
    | cons a l => rfl
  refine ⟨rfl, ?_, ?_, ?_, ?_, fun msg m t d => ⟨rfl, rfl⟩⟩
  · intro m
    simp only [stage_check_failure_rate, hne', Bool.false_eq_true, if_false, if_pos hrate]
    split_ifs <;> rfl
  · intro m hrec
    simp only [stage_check_failure_rate, hne', Bool.false_eq_true, if_false, if_pos hrate,
      if_pos hrec]
  · intro hrec
    simp only [process_request, stage_analyze_and_create_task, h1, hex,
      process_after_execution, stage_check_failure_rate, hne', Bool.false_eq_true, if_false,
      if_pos hrate, if_pos hrec, List.cons_append, List.nil_append, List.singleton_append]
    rfl
  · intro hrec
    simp only [process_request, stage_analyze_and_create_task, h1, hex,
      process_after_execution, stage_check_failure_rate, hne', Bool.false_eq_true, if_false,
      if_pos hrate, if_neg hrec, List.cons_append, List.nil_append, List.singleton_append]
    rfl

/-- A single subtask whose execution fails: the one group's success rate is
zero. -/
def sub_fail : Subtask :=
  { id := 3, parent_task_id := 7, content := "x", task_type := some .reasoning,
    priority := .high }

/-- An environment whose only subtask fails during execution while every
other collaborator succeeds; the resilience manager never recommends
"continue_degraded". -/
def env_allfail : Env :=
  { analyze_task := fun content mode =>
      .ok { id := 7, content := content, execution_mode := mode }
    decompose := fun _ => .ok [sub_fail]
    validate_decomposition := fun _ => true
    classify_task_type := fun _ => .ok []
    determine_parallelism := fun st => .ok (create_sequential_plan st)
    overall_health := fun _ => "operational"
    models_for_task_type := fun _ => ["M"]
    recommended_model := fun _ _ _ => "M"
    execute := fun _ _ => .error { kind := .provider, msg := "provider down" }
    recovery_action := fun _ => "fail"
    arbitrate := fun rs => .ok rs
    synthesize := fun _ => .error { kind := .other, msg := "synthesis down" }
    attach_metadata := fun fr _ => .ok fr }

/-- The failure response env_allfail's execution produces for sub_fail. -/
def resp_fail : AgentResponse :=
  { subtask_id := 3
    model_used := "unknown"
    content := ""
    success := false
    error_message := some "provider down" }

/-- Witness for C2: the whole-pipeline degraded return on env_allfail. -/
theorem check_failure_rate_spec_witness :
    process_request env_allfail "x" .balanced =
      .ok (create_degraded_response "Too many subtask failures"
        { execution_path := ["task_creation", "task_decomposition", "execution_planning",
                             "subtask_execution"]
          parallel_executions :=
            (stage_plan_execution env_allfail
              (stage_decompose_task env_allfail
                { id := 7, content := "x", execution_mode := .balanced })).parallel_groups.length
          models_used := successful_models [resp_fail] }
        env_allfail.elapsed "Success rate below 50% threshold") :=
  (check_failure_rate_spec env_allfail "x" .balanced
      { id := 7, content := "x", execution_mode := .balanced } [resp_fail]
      (by rfl)
      (by
        show execute_groups_loop env_allfail .balanced [[sub_fail]] 0 0 [] = .ok [resp_fail]
        unfold execute_groups_loop
        norm_num [execute_parallel_group_resilient, execute_single_subtask, env_allfail,
          sub_fail, priority_value, success_count, resp_fail, List.filter,
          execute_groups_loop]
        decide)
      (by decide)
      (by norm_num [show success_count [resp_fail] = 0 from rfl])).2.2.2.2.1
    (by decide)

/-- C9: an empty execution-response list makes the partial-failure check
return "continue" with no event filed and no division, and process_request
then returns the degraded all-subtasks-failed response with success = false,
overall_confidence = 0.2 and models_used = []. -/
theorem empty_responses_degraded
    (env : Env) (user_input : String) (execution_mode : ExecutionMode) (task : Task)
    (h1 : env.analyze_task user_input execution_mode = .ok task)
    (hplan : (stage_plan_execution env (stage_decompose_task env task)).parallel_groups = []) :
    (∀ m : ExecutionMetadata, stage_check_failure_rate env [] m = ("continue", m, none)) ∧
    process_request env user_input execution_mode =
      .ok (create_degraded_response "All subtasks failed"
        { execution_path := ["task_creation", "task_decomposition", "execution_planning",
                             "subtask_execution"]
          parallel_executions := 0
          models_used := [] }
        env.elapsed "No successful subtask executions") ∧
    (∀ m t, (create_degraded_response "All subtasks failed" m t
        "No successful subtask executions").success = false ∧
      (create_degraded_response "All subtasks failed" m t
        "No successful subtask executions").overall_confidence = 1/5 ∧
      (create_degraded_response "All subtasks failed" m t
        "No successful subtask executions").models_used = []) := by
  have hex : execute_subtasks_with_resilience env
      (stage_plan_execution env (stage_decompose_task env task)) execution_mode = .ok [] := by
    unfold execute_subtasks_with_resilience
    rw [hplan]
    rfl
  refine ⟨fun m => rfl, ?_, fun m t => ⟨rfl, rfl, rfl⟩⟩
  simp only [process_request, stage_analyze_and_create_task, h1, hex, hplan,
    process_after_execution, proceed_after_check, stage_check_failure_rate,
    List.cons_append, List.nil_append, List.singleton_append, List.length_nil]
  rfl

/-- An environment whose decomposition is empty and whose router returns a
plan with no groups. -/
def env_empty : Env :=
  { analyze_task := fun content mode =>
      .ok { id := 7, content := content, execution_mode := mode }
    decompose := fun _ => .ok []
    validate_decomposition := fun _ => true
    classify_task_type := fun _ => .ok []
    determine_parallelism := fun _ => .ok { parallel_groups := [], sequential_order := [] }
    overall_health := fun _ => "operational"
    models_for_task_type := fun _ => ["M"]
    recommended_model := fun _ _ _ => "M"
    execute := fun s m => .ok { subtask_id := s.id, model_used := m }
    recovery_action := fun _ => "fail"
    arbitrate := fun rs => .ok rs
    synthesize := fun rs =>
      .ok { content := "ok", overall_confidence := 1, models_used := rs.map (·.model_used) }
    attach_metadata := fun fr _ => .ok fr }

/-- Witness for C9: the degraded response on the empty-plan environment. -/
theorem empty_responses_degraded_witness :
    process_request env_empty "x" .balanced =
      .ok (create_degraded_response "All subtasks failed"
        { execution_path := ["task_creation", "task_decomposition", "execution_planning",
                             "subtask_execution"]
          parallel_executions := 0
          models_used := [] }
        env_empty.elapsed "No successful subtask executions") :=
  (empty_responses_degraded env_empty "x" .balanced
      { id := 7, content := "x", execution_mode := .balanced } (by rfl) (by rfl)).2.1

/-! ## Claims C4 and C5: the execution stage's group policy -/

/-- Spec-side stopping rule for FAST mode (spec §4.1 stage 5): the number of
leading groups executed; the run ends with the first group after which the
cumulative ratio of low-success groups strictly exceeds one half, and covers
every group when that never happens. -/
def fast_stop_count (env : Env) : List (List Subtask) → ℕ → ℕ → ℕ
| [], _, _ => 0
| group :: rest, group_index, failed_groups =>
  let failed' : ℕ :=
    if (success_count (execute_parallel_group_resilient env group .fast) : ℚ) /
        ((execute_parallel_group_resilient env group .fast).length : ℚ) < 1/2
    then failed_groups + 1 else failed_groups
  if (failed' : ℚ) / ((group_index : ℚ) + 1) > 1/2 then 1
  else fast_stop_count env rest (group_index + 1) failed' + 1

lemma group_responses_length_ne_zero (env : Env) (mode : ExecutionMode)
    {g : List Subtask} (hg : g ≠ []) :
    ¬ (execute_parallel_group_resilient env g mode).length = 0 := by
  simp only [execute_parallel_group_resilient, List.length_map]
  exact fun h => hg (List.length_eq_zero.mp h)

lemma execute_groups_loop_all (env : Env) (mode : ExecutionMode) (hmode : mode ≠ .fast) :
    ∀ (groups : List (List Subtask)) (group_index failed_groups : ℕ)
      (acc : List AgentResponse), (∀ g ∈ groups, g ≠ []) →
    execute_groups_loop env mode groups group_index failed_groups acc =
      .ok (acc ++ (groups.map (fun g => execute_parallel_group_resilient env g mode)).flatten)
| [], _, _, acc, _ => by simp [execute_groups_loop]
| group :: rest, group_index, failed_groups, acc, hne => by
  have hg : group ≠ [] := hne group (List.mem_cons_self group rest)
  have hlen := group_responses_length_ne_zero env mode hg
  have hrest : ∀ g ∈ rest, g ≠ [] := fun g hgm => hne g (List.mem_cons_of_mem _ hgm)
  simp only [execute_groups_loop, if_neg hlen]
  set F : ℕ :=
    (if (success_count (execute_parallel_group_resilient env group mode) : ℚ) /
        ((execute_parallel_group_resilient env group mode).length : ℚ) < 1/2
     then failed_groups + 1 else failed_groups) with hF
  rw [if_neg (show ¬((F : ℚ) / ((group_index : ℚ) + 1) > 1/2 ∧ mode = .fast) from
    fun h => hmode h.2)]
  rw [execute_groups_loop_all env mode hmode rest (group_index + 1) F _ hrest]
  simp [List.append_assoc]

lemma execute_groups_loop_take_fast (env : Env) :
    ∀ (groups : List (List Subtask)) (group_index failed_groups : ℕ)
      (acc : List AgentResponse), (∀ g ∈ groups, g ≠ []) →
    execute_groups_loop env .fast groups group_index failed_groups acc =
      .ok (acc ++
        ((groups.take (fast_stop_count env groups group_index failed_groups)).map
          (fun g => execute_parallel_group_resilient env g .fast)).flatten)
| [], _, _, acc, _ => by simp [execute_groups_loop, fast_stop_count]
| group :: rest, group_index, failed_groups, acc, hne => by
  have hg : group ≠ [] := hne group (List.mem_cons_self group rest)
  have hlen := group_responses_length_ne_zero env .fast hg
  have hrest : ∀ g ∈ rest, g ≠ [] := fun g hgm => hne g (List.mem_cons_of_mem _ hgm)
  simp only [execute_groups_loop, fast_stop_count, if_neg hlen]
  set F : ℕ :=
    (if (success_count (execute_parallel_group_resilient env group .fast) : ℚ) /
        ((execute_parallel_group_resilient env group .fast).length : ℚ) < 1/2
     then failed_groups + 1 else failed_groups) with hF
  by_cases hb : (F : ℚ) / ((group_index : ℚ) + 1) > 1/2
  · rw [if_pos (And.intro hb trivial), if_pos hb]
    simp
  · rw [if_neg (fun h => hb h.1), if_neg hb]
    rw [execute_groups_loop_take_fast env rest (group_index + 1) F _ hrest]
    simp [List.take_succ_cons, List.append_assoc]

/-- C4: parallel groups are executed in plan order; in BALANCED and
BEST_QUALITY modes every group in the plan is executed; in FAST mode
execution stops as soon as the cumulative ratio of low-success groups
strictly exceeds one half, covering exactly the `fast_stop_count` leading
groups.  (Groups are required non-empty: an empty group makes the source
divide by zero.) -/
theorem execution_group_policy (env : Env) (plan : ExecutionPlan) (mode : ExecutionMode)
    (hne : ∀ g ∈ plan.parallel_groups, g ≠ []) :
    (mode = .balanced ∨ mode = .best_quality →
      execute_subtasks_with_resilience env plan mode =
        .ok ((plan.parallel_groups.map
          (fun g => execute_parallel_group_resilient env g mode)).flatten)) ∧
    (mode = .fast →
      execute_subtasks_with_resilience env plan mode =
        .ok (((plan.parallel_groups.take
            (fast_stop_count env plan.parallel_groups 0 0)).map
          (fun g => execute_parallel_group_resilient env g .fast)).flatten)) := by
  constructor
  · intro hm
    have hmode : mode ≠ .fast := by rcases hm with h | h <;> subst h <;> decide
    unfold execute_subtasks_with_resilience
    rw [execute_groups_loop_all env mode hmode plan.parallel_groups 0 0 [] hne]
    simp
  · intro hm
    subst hm
    unfold execute_subtasks_with_resilience
    rw [execute_groups_loop_take_fast env plan.parallel_groups 0 0 [] hne]
    simp

/-- Witness for C4: a one-group plan in BALANCED mode runs its (single)
group. -/
theorem execution_group_policy_witness :
    execute_subtasks_with_resilience env_allfail
        { parallel_groups := [[sub_fail]], sequential_order := [3] } .balanced =
      .ok ((([[sub_fail]] : List (List Subtask)).map
        (fun g => execute_parallel_group_resilient env_allfail g .balanced)).flatten) :=
  (execution_group_policy env_allfail
      { parallel_groups := [[sub_fail]], sequential_order := [3] } .balanced
      (by simp)).1 (Or.inl rfl)

lemma execute_single_subtask_id (env : Env)
    (hagent : ∀ s mid r, env.execute s mid = .ok r → r.subtask_id = s.id)
    (s : Subtask) (mode : ExecutionMode) :
    (execute_single_subtask env s mode).subtask_id = s.id := by
  unfold execute_single_subtask
  split_ifs with h1 h2 h3
  · rfl
  · rfl
  · cases hE : env.execute s
        (env.recommended_model s mode (env.models_for_task_type s.task_type)) with
    | ok r => simpa [hE] using hagent _ _ _ hE
    | error e =>
      simp only [hE]
      split_ifs <;> rfl
  · rfl

lemma execute_group_ids (env : Env)
    (hagent : ∀ s mid r, env.execute s mid = .ok r → r.subtask_id = s.id)
    (mode : ExecutionMode) (g : List Subtask) :
    (execute_parallel_group_resilient env g mode).map (·.subtask_id) = g.map (·.id) := by
  unfold execute_parallel_group_resilient
  rw [List.map_map]
  exact List.map_congr_left (fun s _ => execute_single_subtask_id env hagent s mode)

/-- C5 (amended): in BALANCED and BEST_QUALITY modes — where no early stop and
no degraded-health skipping can occur — the execution stage yields exactly one
response per planned subtask, in plan order, each carrying its subtask's id,
so the response multiset matches the decomposer's subtasks whenever the plan
covers them; and a subtask skipped under degraded health (FAST mode,
low/medium priority) still yields a response with success = false and
metadata reason "system_degraded". -/
theorem execution_responses_match_subtasks
    (env : Env) (plan : ExecutionPlan) (mode : ExecutionMode) (subtasks : List Subtask)
    (hne : ∀ g ∈ plan.parallel_groups, g ≠ [])
    (hcover : plan.parallel_groups.flatten.Perm subtasks)
    (hagent : ∀ s mid r, env.execute s mid = .ok r → r.subtask_id = s.id)
    (hmode : mode = .balanced ∨ mode = .best_quality) :
    (∃ rs, execute_subtasks_with_resilience env plan mode = .ok rs ∧
      (rs.map (·.subtask_id)).Perm (subtasks.map (·.id))) ∧
    (∀ s : Subtask, env.overall_health s = "degraded" →
      priority_value s.priority ∈ ["low", "medium"] →
      execute_single_subtask env s .fast =
        { subtask_id := s.id
          model_used := "skipped"
          content := ""
          success := false
          error_message := some "Skipped due to system degradation"
          metadata := [("skipped", MetaVal.b true), ("reason", MetaVal.s "system_degraded")] }) := by
  constructor
  · have hmode' : mode ≠ .fast := by rcases hmode with h | h <;> subst h <;> decide
    refine ⟨(plan.parallel_groups.map
        (fun g => execute_parallel_group_resilient env g mode)).flatten, ?_, ?_⟩
    · unfold execute_subtasks_with_resilience
      rw [execute_groups_loop_all env mode hmode' plan.parallel_groups 0 0 [] hne]
      simp
    · rw [List.map_flatten, List.map_map]
      have hids : plan.parallel_groups.map
            ((List.map (·.subtask_id)) ∘ (fun g => execute_parallel_group_resilient env g mode))
          = plan.parallel_groups.map (fun g => g.map (·.id)) :=
        List.map_congr_left (fun g _ => execute_group_ids env hagent mode g)
      rw [hids, show plan.parallel_groups.map (fun g => g.map (·.id))
            = plan.parallel_groups.map (List.map (·.id)) from rfl,
          ← List.map_flatten]
      exact hcover.map _
  · intro s hdeg hpri
    unfold execute_single_subtask
    rw [if_pos ⟨hdeg, rfl, hpri⟩]

/-- A subtask whose execution succeeds in the C5 witness environment. -/
def sub_ok : Subtask :=
  { id := 4, parent_task_id := 7, content := "y", task_type := some .reasoning,
    priority := .high }

/-- An environment whose execution agent succeeds and tags responses with the
executed subtask's id. -/
def env_ok : Env :=
  { analyze_task := fun content mode =>
      .ok { id := 7, content := content, execution_mode := mode }
    decompose := fun _ => .ok [sub_ok]
    validate_decomposition := fun _ => true
    classify_task_type := fun _ => .ok []
    determine_parallelism := fun st => .ok (create_sequential_plan st)
    overall_health := fun _ => "operational"
    models_for_task_type := fun _ => ["M"]
    recommended_model := fun _ _ _ => "M"
    execute := fun s m => .ok { subtask_id := s.id, model_used := m }
    recovery_action := fun _ => "continue_degraded"
    arbitrate := fun rs => .ok rs
    synthesize := fun rs =>
      .ok { content := "ok", overall_confidence := 1, models_used := rs.map (·.model_used) }
    attach_metadata := fun fr _ => .ok fr }

/-- Witness for C5 (amended): a one-subtask plan in BALANCED mode. -/
theorem execution_responses_match_subtasks_witness :
    (∃ rs, execute_subtasks_with_resilience env_ok
        { parallel_groups := [[sub_ok]], sequential_order := [4] } .balanced = .ok rs ∧
      (rs.map (·.subtask_id)).Perm ([sub_ok].map (·.id))) ∧
    (∀ s : Subtask, env_ok.overall_health s = "degraded" →
      priority_value s.priority ∈ ["low", "medium"] →
      execute_single_subtask env_ok s .fast =
        { subtask_id := s.id
          model_used := "skipped"
          content := ""
          success := false
          error_message := some "Skipped due to system degradation"
          metadata := [("skipped", MetaVal.b true), ("reason", MetaVal.s "system_degraded")] }) :=
  execution_responses_match_subtasks env_ok
    { parallel_groups := [[sub_ok]], sequential_order := [4] } .balanced [sub_ok]
    (by simp)
    (by simp)
    (by
      intro s mid r h
      injection h with h2
      subst h2
      rfl)
    (Or.inl rfl)

/-- First subtask of the C5 counterexample plan. -/
def sub_a : Subtask :=
  { id := 1, parent_task_id := 9, content := "a", task_type := some .reasoning,
    priority := .high }

/-- Second subtask of the C5 counterexample plan. -/
def sub_b : Subtask :=
  { id := 2, parent_task_id := 9, content := "b", task_type := some .reasoning,
    priority := .high }

/-- An environment that decomposes into two subtasks planned as two groups,
with every execution failing: in FAST mode the first group's failure trips
the early stop. -/
def env_fast2 : Env :=
  { analyze_task := fun content mode =>
      .ok { id := 9, content := content, execution_mode := mode }
    decompose := fun _ => .ok [sub_a, sub_b]
    validate_decomposition := fun _ => true
    classify_task_type := fun _ => .ok []
    determine_parallelism := fun _ =>
      .ok { parallel_groups := [[sub_a], [sub_b]], sequential_order := [1, 2] }
    overall_health := fun _ => "operational"
    models_for_task_type := fun _ => ["M"]
    recommended_model := fun _ _ _ => "M"
    execute := fun _ _ => .error { kind := .provider, msg := "provider down" }
    recovery_action := fun _ => "continue_degraded"
    arbitrate := fun rs => .ok rs
    synthesize := fun rs =>
      .ok { content := "ok", overall_confidence := 1, models_used := rs.map (·.model_used) }
    attach_metadata := fun fr _ => .ok fr }

/-- The task env_fast2's analysis produces for input "x" in FAST mode. -/
def task_fast2 : Task := { id := 9, content := "x", execution_mode := .fast }

/-- The single failure response env_fast2's execution produces. -/
def resp_a : AgentResponse :=
  { subtask_id := 1
    model_used := "unknown"
    content := ""
    success := false
    error_message := some "provider down" }

/-- Counterexample to C5 as stated: in FAST mode the early stop drops the
second subtask's group, so the execution stage emits one response for a
two-subtask decomposition — the response multiset does not match the
decomposer's subtasks. -/
theorem execution_responses_counterexample :
    execute_subtasks_with_resilience env_fast2
        (stage_plan_execution env_fast2 (stage_decompose_task env_fast2 task_fast2)) .fast =
      .ok [resp_a] ∧
    (stage_decompose_task env_fast2 task_fast2).map (·.id) = [1, 2] ∧
    ¬ (([resp_a].map (·.subtask_id)).Perm
        ((stage_decompose_task env_fast2 task_fast2).map (·.id))) := by
  refine ⟨?_, rfl, ?_⟩
  · show execute_groups_loop env_fast2 .fast [[sub_a], [sub_b]] 0 0 [] = .ok [resp_a]
    have h1 : execute_parallel_group_resilient env_fast2 [sub_a] .fast = [resp_a] := by decide
    norm_num [execute_groups_loop, h1, show success_count [resp_a] = 0 from rfl]
  · intro h
    have hlen := h.length_eq
    rw [show stage_decompose_task env_fast2 task_fast2 = [sub_a, sub_b] from rfl] at hlen
    simp at hlen

end AiCouncil
